import Mathlib

/-!
Shallow embedding of the three OpenGL example programs of this repository:
render.go (one rotating quad), the two-triangle variant (part_000) and the
animated ten-cube variant (part_001).

The GPU driver is modelled as an oracle (compile and link outcomes plus the
diagnostic logs it would report) together with an explicit driver-side
resource state; the builder functions record every driver call they issue,
so that presence and absence of calls, and the driver resource counts, can
be stated. Frame bodies are modelled as traces of driver events; matrix
values stay symbolic, recording which math-library constructor was invoked
with which arguments.
-/

/-! Constants from the GL headers used by the programs. -/

def GL_VERTEX_SHADER : Nat := 0x8B31

def GL_FRAGMENT_SHADER : Nat := 0x8B30

def GL_FALSE : Int := 0

def GL_TRIANGLES : Nat := 4

def GL_UNSIGNED_INT : Nat := 0x1405

def GL_COLOR_BUFFER_BIT : Nat := 0x4000

def GL_DEPTH_BUFFER_BIT : Nat := 0x100

def GL_ARRAY_BUFFER : Nat := 0x8892

def GL_ELEMENT_ARRAY_BUFFER : Nat := 0x8893

/-- One call issued to the GPU driver. The vocabulary includes
`detachShader` and `deleteProgram`, which the programs never issue, so that
their absence from a call trace can be stated. -/
inductive GLCall where
  | createShader (shaderType id : Nat)
  | shaderSource (id : Nat) (src : String)
  | compileShaderCall (id : Nat)
  | deleteShader (id : Nat)
  | createProgramCall (id : Nat)
  | attachShader (program shader : Nat)
  | detachShader (program shader : Nat)
  | linkProgram (id : Nat)
  | deleteProgram (id : Nat)
deriving DecidableEq

/-- Oracle describing the GPU driver behaviour the programs observe: a
compile status and an info log per source text, a link status and a link
log. -/
structure Driver where
  compileOk : String → Bool
  compileLog : String → List Char
  linkOk : Bool
  linkLog : List Char

/-- Driver-side resource state plus the trace of calls issued so far. Per
the GL specification, deleting a shader that is still attached to a program
only flags it for deletion: it stays in `liveShaders` until detached. -/
structure GLState where
  nextId : Nat
  liveShaders : List Nat
  flaggedShaders : List Nat
  attachments : List (Nat × Nat)
  livePrograms : List Nat
  calls : List GLCall

def shaderCount (st : GLState) : Nat := st.liveShaders.length

def programCount (st : GLState) : Nat := st.livePrograms.length

def glCreateShader (st : GLState) (shaderType : Nat) : Nat × GLState :=
  (st.nextId,
   { st with nextId := st.nextId + 1,
             liveShaders := st.liveShaders ++ [st.nextId],
             calls := st.calls ++ [GLCall.createShader shaderType st.nextId] })

def glShaderSource (st : GLState) (id : Nat) (src : String) : GLState :=
  { st with calls := st.calls ++ [GLCall.shaderSource id src] }

def glCompileShader (st : GLState) (id : Nat) : GLState :=
  { st with calls := st.calls ++ [GLCall.compileShaderCall id] }

def isAttached (st : GLState) (s : Nat) : Bool :=
  st.attachments.any (fun pr => pr.2 == s)

def glDeleteShader (st : GLState) (s : Nat) : GLState :=
  let st1 := { st with calls := st.calls ++ [GLCall.deleteShader s] }
  if isAttached st1 s then
    { st1 with flaggedShaders := st1.flaggedShaders ++ [s] }
  else
    { st1 with liveShaders := st1.liveShaders.filter (fun x => x != s) }

def glCreateProgram (st : GLState) : Nat × GLState :=
  (st.nextId,
   { st with nextId := st.nextId + 1,
             livePrograms := st.livePrograms ++ [st.nextId],
             calls := st.calls ++ [GLCall.createProgramCall st.nextId] })

def glAttachShader (st : GLState) (p s : Nat) : GLState :=
  { st with attachments := st.attachments ++ [(p, s)],
            calls := st.calls ++ [GLCall.attachShader p s] }

def glLinkProgram (st : GLState) (p : Nat) : GLState :=
  { st with calls := st.calls ++ [GLCall.linkProgram p] }

/-! Diagnostic-log handling, mirroring the Go code: it reads INFO_LOG_LENGTH,
allocates a string of that many NUL bytes plus one, and lets the driver fill
the front of the buffer. -/

def nulChar : Char := Char.ofNat 0

def apos : String := String.singleton (Char.ofNat 39)

/-- Header of compile error messages; the Go literal contains an apostrophe,
assembled here from `apos`. -/
def compileErrHeader : String := "couldn" ++ apos ++ "t compile shader: "

/-- Header of link error messages. -/
def linkErrHeader : String := "couldn" ++ apos ++ "t link shaders: "

/-- GL INFO_LOG_LENGTH: length of the info log including its terminating
NUL, or 0 when the log is empty. -/
def infoLogLength (log : List Char) : Nat :=
  if log.isEmpty then 0 else log.length + 1

/-- GL GetShaderInfoLog and GetProgramInfoLog with buffer size `bufSize`:
the driver writes at most `bufSize` characters (the log truncated to
`bufSize - 1` characters, then a terminating NUL) into the front of `buf`;
the rest of `buf` is untouched. -/
def writeInfoLog (bufSize : Nat) (log : List Char) (buf : List Char) : List Char :=
  let written := if bufSize = 0 then [] else log.take (bufSize - 1) ++ [nulChar]
  written ++ buf.drop written.length

/-- The log buffer as the Go code sees it after the driver call: allocated
as `msgLength + 1` NUL bytes and then filled by the driver. -/
def filledLogBuf (log : List Char) : List Char :=
  writeInfoLog (infoLogLength log) log (List.replicate (infoLogLength log + 1) nulChar)

/-- Embedding of compileShader; the function is textually identical in all
three source files. On failure it builds the error message and returns; no
DeleteShader call is issued on any path. -/
def compileShader (d : Driver) (st : GLState) (src : String) (shaderType : Nat) :
    Except String Nat × GLState :=
  let p := glCreateShader st shaderType
  let shader := p.1
  let st1 := glShaderSource p.2 shader src
  let st2 := glCompileShader st1 shader
  let status : Int := if d.compileOk src then 1 else GL_FALSE
  if status = GL_FALSE then
    (Except.error (compileErrHeader ++ String.mk (filledLogBuf (d.compileLog src))), st2)
  else
    (Except.ok shader, st2)

/-- Embedding of createProgram as written in render.go and in the animated
variant: compile failures are returned to the caller. After linking, both
stage shaders are passed to DeleteShader (but never detached); on link
failure the error message is built and returned without deleting the
program object. -/
def createProgram (d : Driver) (st : GLState) (vertexSrc fragmentSrc : String) :
    Except String Nat × GLState :=
  match compileShader d st vertexSrc GL_VERTEX_SHADER with
  | (Except.error e, st1) => (Except.error e, st1)
  | (Except.ok vertexShader, st1) =>
    match compileShader d st1 fragmentSrc GL_FRAGMENT_SHADER with
    | (Except.error e, st2) => (Except.error e, st2)
    | (Except.ok fragmentShader, st2) =>
      let q := glCreateProgram st2
      let shaderProgram := q.1
      let st4 := glAttachShader q.2 shaderProgram vertexShader
      let st5 := glAttachShader st4 shaderProgram fragmentShader
      let st6 := glLinkProgram st5 shaderProgram
      let st7 := glDeleteShader st6 vertexShader
      let st8 := glDeleteShader st7 fragmentShader
      let status : Int := if d.linkOk then 1 else GL_FALSE
      if status = GL_FALSE then
        (Except.error (linkErrHeader ++ String.mk (filledLogBuf d.linkLog)), st8)
      else
        (Except.ok shaderProgram, st8)

/-- Result of a Go function call that may panic. -/
inductive GoResult (α : Type) where
  | ret (a : α)
  | panicked (msg : String)

def isPanic {α : Type} : GoResult α → Bool
  | GoResult.panicked _ => true
  | GoResult.ret _ => false

/-- createProgram of render.go and of the animated variant contains no
panic site; this wrapper records that every return is a normal return. -/
def createProgramR (d : Driver) (st : GLState) (v f : String) :
    GoResult (Except String Nat) × GLState :=
  let r := createProgram d st v f
  (GoResult.ret r.1, r.2)

namespace TwoTri

/-- Embedding of createProgram as written in the two-triangle variant
(part_000): a compile-stage failure panics inside the builder; a link
failure is returned as an error value. -/
def createProgram (d : Driver) (st : GLState) (vertexSrc fragmentSrc : String) :
    GoResult (Except String Nat) × GLState :=
  match compileShader d st vertexSrc GL_VERTEX_SHADER with
  | (Except.error e, st1) => (GoResult.panicked e, st1)
  | (Except.ok vertexShader, st1) =>
    match compileShader d st1 fragmentSrc GL_FRAGMENT_SHADER with
    | (Except.error e, st2) => (GoResult.panicked e, st2)
    | (Except.ok fragmentShader, st2) =>
      let q := glCreateProgram st2
      let shaderProgram := q.1
      let st4 := glAttachShader q.2 shaderProgram vertexShader
      let st5 := glAttachShader st4 shaderProgram fragmentShader
      let st6 := glLinkProgram st5 shaderProgram
      let st7 := glDeleteShader st6 vertexShader
      let st8 := glDeleteShader st7 fragmentShader
      let status : Int := if d.linkOk then 1 else GL_FALSE
      if status = GL_FALSE then
        (GoResult.ret (Except.error (linkErrHeader ++ String.mk (filledLogBuf d.linkLog))), st8)
      else
        (GoResult.ret (Except.ok shaderProgram), st8)

end TwoTri

/-! Helpers for inspecting results and call traces. -/

def isErr {α : Type} : Except String α → Bool
  | Except.error _ => true
  | Except.ok _ => false

def isDeleteShaderCall : GLCall → Bool
  | GLCall.deleteShader _ => true
  | _ => false

def isDetachCall : GLCall → Bool
  | GLCall.detachShader _ _ => true
  | _ => false

def isDeleteProgramCall : GLCall → Bool
  | GLCall.deleteProgram _ => true
  | _ => false

def deleteShaderCallCount (tr : List GLCall) : Nat := (tr.filter isDeleteShaderCall).length

def detachCallCount (tr : List GLCall) : Nat := (tr.filter isDetachCall).length

def deleteProgramCallCount (tr : List GLCall) : Nat := (tr.filter isDeleteProgramCall).length

/-! Concrete inputs used by counterexamples and witnesses. -/

/-- A driver on which every compile fails with log text "bad". -/
def failDriver : Driver :=
  { compileOk := fun _ => false,
    compileLog := fun _ => ['b', 'a', 'd'],
    linkOk := true,
    linkLog := [] }

/-- A driver on which every compile succeeds and linking fails with log
text "L". -/
def linkFailDriver : Driver :=
  { compileOk := fun _ => true,
    compileLog := fun _ => [],
    linkOk := false,
    linkLog := ['L'] }

/-- Initial driver state: no objects, empty trace. -/
def st0 : GLState :=
  { nextId := 1, liveShaders := [], flaggedShaders := [], attachments := [],
    livePrograms := [], calls := [] }

/-! Symbolic matrix expressions: which constructor of the mgl32 library a
frame calls, with which arguments. Angles record whether DegToRad was
applied; vectors record whether Normalize was applied. -/

/-- An angle value as the code builds it. -/
inductive AngleE where
  | lit (deg : ℚ)
  | degToRad (deg : ℚ)
deriving DecidableEq

/-- A 3-vector value as the code builds it. -/
inductive Vec3E where
  | lit (x y z : ℚ)
  | normalize (v : Vec3E)
deriving DecidableEq

/-- A 4 by 4 matrix value as the code builds it with mgl32 calls. -/
inductive Mat4E where
  | ident
  | translate3D (x y z : ℚ)
  | homogRotate3D (angle : AngleE) (axis : Vec3E)
  | perspective (fovy : AngleE) (aspect near far : ℚ)
  | mul (a b : Mat4E)
deriving DecidableEq

/-- One observable action of a frame (GL call, window call, or the
should-close update). Uniform uploads are identified by the uniform name
the location was resolved from. -/
inductive GLEvent where
  | setShouldClose (b : Bool)
  | clearColor (r g b a : ℚ)
  | clear (mask : Nat)
  | bindVertexArray (vao : Nat)
  | useProgram (program : Nat)
  | uniformUpload (name : String) (m : Mat4E)
  | drawArrays (mode first count : Nat)
  | drawElements (mode count ty byteOffset : Nat)
  | bufferData (target byteLen : Nat)
  | swapBuffers
  | pollEvents
deriving DecidableEq

def isDraw : GLEvent → Bool
  | GLEvent.drawArrays _ _ _ => true
  | GLEvent.drawElements _ _ _ _ => true
  | _ => false

def drawCount (tr : List GLEvent) : Nat := (tr.filter isDraw).length

/-- The matrices uploaded to the uniform called `name`, in trace order. -/
def uploadsOf (name : String) (tr : List GLEvent) : List Mat4E :=
  tr.filterMap (fun e => match e with
    | GLEvent.uniformUpload n m => if n = name then some m else none
    | _ => none)

/-- Index of the first upload to the uniform called `name`. -/
def idxOfUpload (name : String) (tr : List GLEvent) : Nat :=
  tr.findIdx (fun e => match e with
    | GLEvent.uniformUpload n _ => n == name
    | _ => false)

/-- Index of the first draw call of a trace. -/
def idxFirstDraw (tr : List GLEvent) : Nat := tr.findIdx isDraw

/-- The translation component of a model matrix built as
identity times translation times rotation. -/
def translationOf : Mat4E → Option (ℚ × ℚ × ℚ)
  | Mat4E.mul (Mat4E.mul Mat4E.ident (Mat4E.translate3D x y z)) _ => some (x, y, z)
  | _ => none

/-- The rotation angle argument of a model matrix built as
identity times translation times rotation. -/
def rotationAngleOf : Mat4E → Option AngleE
  | Mat4E.mul _ (Mat4E.homogRotate3D a _) => some a
  | _ => none

/-- The rotation axis argument of a model matrix built as
identity times translation times rotation. -/
def rotationAxisOf : Mat4E → Option Vec3E
  | Mat4E.mul _ (Mat4E.homogRotate3D _ v) => some v
  | _ => none

/-- The translations used by the model uploads of a trace, in order. -/
def translationsUsed (tr : List GLEvent) : List (ℚ × ℚ × ℚ) :=
  (uploadsOf "model" tr).filterMap translationOf

def isBufferUpload : GLEvent → Bool
  | GLEvent.bufferData _ _ => true
  | _ => false

/-- The pairs (index count, byte offset) of the indexed draw calls of a
trace, in order. -/
def elementDraws (tr : List GLEvent) : List (Nat × Nat) :=
  tr.filterMap (fun e => match e with
    | GLEvent.drawElements _ c _ off => some (c, off)
    | _ => none)

/-- The events of a trace strictly after its last buffer swap. -/
def afterLastSwap (tr : List GLEvent) : List GLEvent :=
  (tr.reverse.takeWhile (fun e => e != GLEvent.swapBuffers)).reverse

/-! render.go: one quad rotated by a fixed angle, drawn with a single
six-index draw call per frame. Handle values returned by the driver are
opaque; fixed representative ids are used for the vertex array object and
the program. -/

namespace Render

/-- Vertex positions of render.go, four corners of a quad, three
components each. -/
def vertices : List ℚ :=
  [0.5, 0.5, 0.0,
   0.5, -0.5, 0.0,
   -0.5, -0.5, 0.0,
   -0.5, 0.5, 0.0]

/-- Index buffer of render.go. -/
def indices : List Nat := [0, 1, 2, 0, 2, 3]

def vao : Nat := 1

def shaderProgramId : Nat := 2

def modelM : Mat4E :=
  Mat4E.homogRotate3D (AngleE.degToRad (-55)) (Vec3E.lit 1 0 0)

def viewM : Mat4E := Mat4E.translate3D 0 0 (-3)

def projectionM : Mat4E :=
  Mat4E.perspective (AngleE.degToRad 45) (800 / 640) 0.1 100

/-- One iteration of the frame loop of render.go, as the trace of its
events; `esc` is whether GetKey reports the Escape key pressed when the
frame starts. -/
def frameBody (esc : Bool) : List GLEvent :=
  (if esc then [GLEvent.setShouldClose true] else []) ++
  [GLEvent.clearColor 0 1 0 1,
   GLEvent.clear GL_COLOR_BUFFER_BIT,
   GLEvent.bindVertexArray vao,
   GLEvent.useProgram shaderProgramId,
   GLEvent.uniformUpload "model" modelM,
   GLEvent.uniformUpload "view" viewM,
   GLEvent.uniformUpload "projection" projectionM,
   GLEvent.drawElements GL_TRIANGLES 6 GL_UNSIGNED_INT 0,
   GLEvent.swapBuffers,
   GLEvent.pollEvents]

/-- The frame loop of render.go: it runs while the should-close flag is
down; inside a frame, a pressed Escape key raises the flag, which is only
read again at the top of the next iteration. The list gives the key state
observed by each potential frame. -/
def runLoop (sc : Bool) : List Bool → List GLEvent
  | [] => []
  | esc :: rest =>
    if sc then [] else frameBody esc ++ runLoop (sc || esc) rest

end Render

/-! The two-triangle variant (part_000): four vertex positions, six
indices, two programs, two indexed draw calls of three indices each per
frame, the second at byte offset 12 into the same index buffer. -/

namespace TwoTri

/-- Vertex positions of part_000; the fourth position is (1.0, -0.5, 0.0),
which does not complete a parallelogram with the first three. -/
def vertices : List ℚ :=
  [0.5, 0.5, 0.0,
   0.5, -0.5, 0.0,
   -0.5, -0.5, 0.0,
   1.0, -0.5, 0.0]

/-- Index buffer of part_000. -/
def indices : List Nat := [0, 1, 2, 0, 1, 3]

def vao : Nat := 1

def redProgram : Nat := 2

def yellowProgram : Nat := 3

/-- Geometry upload performed once before the frame loop: one vertex
buffer and one index buffer, four bytes per element. -/
def setupEvents : List GLEvent :=
  [GLEvent.bufferData GL_ARRAY_BUFFER (vertices.length * 4),
   GLEvent.bufferData GL_ELEMENT_ARRAY_BUFFER (indices.length * 4)]

/-- One iteration of the frame loop of part_000. -/
def frameBody (esc : Bool) : List GLEvent :=
  (if esc then [GLEvent.setShouldClose true] else []) ++
  [GLEvent.clearColor 0 1 0 1,
   GLEvent.clear GL_COLOR_BUFFER_BIT,
   GLEvent.bindVertexArray vao,
   GLEvent.useProgram redProgram,
   GLEvent.drawElements GL_TRIANGLES 3 GL_UNSIGNED_INT 0,
   GLEvent.useProgram yellowProgram,
   GLEvent.drawElements GL_TRIANGLES 3 GL_UNSIGNED_INT (3 * 4),
   GLEvent.swapBuffers,
   GLEvent.pollEvents]

end TwoTri

/-! The animated variant (part_001): ten cubes, each with its own base
position, rotated by an angle depending on the instance index and the
elapsed time. -/

namespace Anim

/-- The ten per-instance base positions of part_001, fixed at startup. -/
def cubePositions : List (ℚ × ℚ × ℚ) :=
  [(0, 0, 0),
   (2, 5, -15),
   (-1.5, -2.2, -2.5),
   (-3.8, -2, -12.3),
   (2.4, -0.4, -3.5),
   (-1.7, 3, -7.5),
   (1.3, -2, -2.5),
   (1.5, 2, -2.5),
   (1.5, 0.2, -1.5),
   (-1.3, 1, -1.5)]

/-- Spec constant: the fixed per-instance angle step, in degrees. -/
def baseAngleStep : ℚ := 20

/-- Spec constant: the fixed angular speed, in degrees per second. -/
def angularSpeed : ℚ := 50

/-- The rotation angle in degrees for instance `i` at elapsed time `t`
seconds, from the line `angle := 20.0*float32(i) + float32(glfw.GetTime())*50.0`. -/
def angle (i : Nat) (t : ℚ) : ℚ := 20 * i + t * 50

/-- The rotation axis of part_001: the vector (0.5, 1.0, 0.0) passed
through Normalize before use. -/
def rotationAxis : Vec3E := Vec3E.normalize (Vec3E.lit 0.5 1 0)

/-- Squared euclidean norm of the raw axis vector (0.5, 1.0, 0.0). -/
def axisNormSq : ℚ := (1 / 2) ^ 2 + 1 ^ 2 + 0 ^ 2

/-- The model matrix for one instance: identity, times the translation by
the base position, times the rotation by the DegToRad-converted angle
about the normalized axis. -/
def model (p : ℚ × ℚ × ℚ) (a : ℚ) : Mat4E :=
  Mat4E.mul (Mat4E.mul Mat4E.ident (Mat4E.translate3D p.1 p.2.1 p.2.2))
    (Mat4E.homogRotate3D (AngleE.degToRad a) rotationAxis)

def viewM : Mat4E := Mat4E.mul Mat4E.ident (Mat4E.translate3D 0 0 (-3))

def projectionM : Mat4E :=
  Mat4E.mul Mat4E.ident (Mat4E.perspective (AngleE.degToRad 45) (800 / 640) 0.1 100)

def vao : Nat := 1

def shaderProgramId : Nat := 2

/-- The per-instance loop of a frame: for each of the ten instances, one
model upload and one draw call of the 36 cube vertices. -/
def instanceSection (t : ℚ) : List GLEvent :=
  (List.range 10).flatMap (fun i =>
    [GLEvent.uniformUpload "model" (model (cubePositions.getD i (0, 0, 0)) (angle i t)),
     GLEvent.drawArrays GL_TRIANGLES 0 36])

/-- One iteration of the frame loop of part_001 at elapsed time `t`. -/
def frameBody (t : ℚ) (esc : Bool) : List GLEvent :=
  (if esc then [GLEvent.setShouldClose true] else []) ++
  [GLEvent.clearColor 0 0 0 1,
   GLEvent.clear (GL_COLOR_BUFFER_BIT ||| GL_DEPTH_BUFFER_BIT),
   GLEvent.bindVertexArray vao,
   GLEvent.useProgram shaderProgramId,
   GLEvent.uniformUpload "view" viewM,
   GLEvent.uniformUpload "projection" projectionM] ++
  instanceSection t ++
  [GLEvent.swapBuffers,
   GLEvent.pollEvents]

end Anim

/-- Whether every uniform upload of a trace targets the model uniform. -/
def onlyModelUploads (tr : List GLEvent) : Bool :=
  tr.all (fun e => match e with
    | GLEvent.uniformUpload n _ => n == "model"
    | _ => true)

/-- A driver on which compiling the source "bad" fails and every other
source compiles, and linking fails. -/
def mixedDriver : Driver :=
  { compileOk := fun s => s != "bad",
    compileLog := fun _ => ['e'],
    linkOk := false,
    linkLog := ['L'] }

/-! Helper lemmas about the diagnostic log buffer. -/

/-- The number of characters the driver writes never exceeds the buffer
size it is given. -/
theorem writtenLen_le (log : List Char) :
    (if infoLogLength log = 0 then ([] : List Char)
     else log.take (infoLogLength log - 1) ++ [nulChar]).length ≤ infoLogLength log := by
  by_cases h : infoLogLength log = 0 <;> simp [h, List.length_take]
  omega

/-- The filled log buffer keeps the allocated length, one more than
INFO_LOG_LENGTH. -/
theorem filledLogBuf_length (log : List Char) :
    (filledLogBuf log).length = infoLogLength log + 1 := by
  have h := writtenLen_le log
  simp only [filledLogBuf, writeInfoLog, List.length_append, List.length_drop,
    List.length_replicate]
  omega

/-- The last byte of the filled log buffer is never written by the driver
and stays NUL. -/
theorem filledLogBuf_getLast (log : List Char) :
    (filledLogBuf log).getLast? = some nulChar := by
  have h := writtenLen_le log
  simp only [filledLogBuf, writeInfoLog]
  set w := (if infoLogLength log = 0 then ([] : List Char)
    else log.take (infoLogLength log - 1) ++ [nulChar]) with hw
  rw [List.drop_replicate]
  have h2 : infoLogLength log + 1 - w.length = (infoLogLength log - w.length) + 1 := by omega
  rw [h2, List.replicate_succ', ← List.append_assoc, List.getLast?_concat]

/-! Helper lemmas about the render.go frame loop. -/

/-- Once the should-close flag is up, the loop performs no further frame. -/
theorem runLoop_stopped (l : List Bool) : Render.runLoop true l = [] := by
  cases l <;> rfl

/-- With the flag initially down and Escape first observed pressed after a
run of frames without it, the loop trace is exactly those frames followed
by the full frame during which Escape was pressed, and nothing further. -/
theorem runLoop_until_escape (pre rest : List Bool) (h : ∀ b ∈ pre, b = false) :
    Render.runLoop false (pre ++ true :: rest) =
      pre.flatMap (fun _ => Render.frameBody false) ++ Render.frameBody true := by
  induction pre with
  | nil => simp [Render.runLoop, runLoop_stopped]
  | cons b bs ih =>
    have hb : b = false := h b (List.mem_cons_self _ _)
    subst hb
    have ih2 := ih (fun x hx => h x (List.mem_cons_of_mem _ hx))
    simp [Render.runLoop, ih2]

/-- After the last buffer swap of a trace ending in a swap and a poll, the
only event left is the poll. -/
theorem afterLastSwap_concat (xs : List GLEvent) :
    afterLastSwap (xs ++ [GLEvent.swapBuffers, GLEvent.pollEvents]) = [GLEvent.pollEvents] := by
  simp [afterLastSwap, List.takeWhile]

/-! Claim C1. -/

/-- Claim C1 counterexample: on a driver that fails every compile, the
call does return an error, but the driver resource count after the failed
call is not equal to the count before it, and no DeleteShader call was
issued: the claim that compileShader frees the allocated shader object on
the failure path is false. -/
theorem c1_leak_counterexample :
    isErr (compileShader failDriver st0 "v" GL_VERTEX_SHADER).1 = true ∧
    shaderCount (compileShader failDriver st0 "v" GL_VERTEX_SHADER).2 ≠ shaderCount st0 ∧
    deleteShaderCallCount (compileShader failDriver st0 "v" GL_VERTEX_SHADER).2.calls = 0 := by
  decide

/-- Claim C1 (amended): for every shader source whose compilation fails,
compileShader returns an error carrying the built diagnostic-log message,
but it does not free the driver-side shader object it allocated: no
DeleteShader call is issued, and the driver-side shader count after the
failed call is one greater than before it (the shader object leaks). -/
theorem c1_amended_compile_failure_leaks (d : Driver) (st : GLState) (src : String)
    (ty : Nat) (h : d.compileOk src = false) :
    (compileShader d st src ty).1 =
      Except.error (compileErrHeader ++ String.mk (filledLogBuf (d.compileLog src))) ∧
    shaderCount (compileShader d st src ty).2 = shaderCount st + 1 ∧
    deleteShaderCallCount (compileShader d st src ty).2.calls =
      deleteShaderCallCount st.calls := by
  simp [compileShader, glCreateShader, glShaderSource, glCompileShader, h, GL_FALSE,
        shaderCount, deleteShaderCallCount, List.filter_append, isDeleteShaderCall]

/-- Witness for the amended C1 at a concrete failing driver. -/
theorem c1_amended_witness :
    shaderCount (compileShader failDriver st0 "v" GL_VERTEX_SHADER).2 = shaderCount st0 + 1 :=
  (c1_amended_compile_failure_leaks failDriver st0 "v" GL_VERTEX_SHADER rfl).2.1

/-! Claim C2. -/

/-- Claim C2 counterexample: on a driver that compiles both stages and
fails the link, createProgram returns an error, but its call trace contains
no DetachShader call and no DeleteProgram call, the program count has
grown, and both stage shader objects are still alive (they were attached
when passed to DeleteShader, so they were only flagged): the claim that
the stages are detached and do not survive the link call, and that the
program object is deleted on link failure, is false. -/
theorem c2_link_counterexample :
    isErr (createProgram linkFailDriver st0 "v" "f").1 = true ∧
    detachCallCount (createProgram linkFailDriver st0 "v" "f").2.calls = 0 ∧
    deleteProgramCallCount (createProgram linkFailDriver st0 "v" "f").2.calls = 0 ∧
    programCount (createProgram linkFailDriver st0 "v" "f").2 ≠ programCount st0 ∧
    (createProgram linkFailDriver st0 "v" "f").2.liveShaders = [1, 2] := by
  decide

/-- Claim C2 (amended): whenever both stages compile, and whether the
subsequent link succeeds or fails, createProgram passes both stage shaders
to DeleteShader but never detaches them, so, being attached, they are only
flagged for deletion and survive the link call, still counted among the
live shader objects; no DeleteProgram call is ever issued and the created
program object stays live on both outcomes. On link failure the returned
error carries the full diagnostic message and no program handle, so no
partially-linked handle is exposed; on link success the program handle is
returned. -/
theorem c2_amended_link_behavior (d : Driver) (st : GLState) (v f : String)
    (h1 : d.compileOk v = true) (h2 : d.compileOk f = true) :
    deleteShaderCallCount (createProgram d st v f).2.calls =
      deleteShaderCallCount st.calls + 2 ∧
    detachCallCount (createProgram d st v f).2.calls = detachCallCount st.calls ∧
    deleteProgramCallCount (createProgram d st v f).2.calls =
      deleteProgramCallCount st.calls ∧
    programCount (createProgram d st v f).2 = programCount st + 1 ∧
    shaderCount (createProgram d st v f).2 = shaderCount st + 2 ∧
    (createProgram d st v f).2.flaggedShaders =
      st.flaggedShaders ++ [st.nextId, st.nextId + 1] ∧
    (d.linkOk = false →
      (createProgram d st v f).1 =
        Except.error (linkErrHeader ++ String.mk (filledLogBuf d.linkLog))) ∧
    (d.linkOk = true →
      (createProgram d st v f).1 = Except.ok (st.nextId + 1 + 1)) := by
  cases hl : d.linkOk <;>
    simp [createProgram, compileShader, glCreateShader, glShaderSource, glCompileShader,
          glCreateProgram, glAttachShader, glLinkProgram, glDeleteShader, isAttached,
          h1, h2, hl, GL_FALSE, shaderCount, programCount,
          deleteShaderCallCount, detachCallCount, deleteProgramCallCount,
          List.filter_append, isDeleteShaderCall, isDetachCall, isDeleteProgramCall,
          List.any_append]

/-- Witness for the amended C2 at a concrete link-failing driver. -/
theorem c2_amended_witness :
    deleteShaderCallCount (createProgram linkFailDriver st0 "v" "f").2.calls =
      deleteShaderCallCount st0.calls + 2 :=
  (c2_amended_link_behavior linkFailDriver st0 "v" "f" rfl rfl).1

/-! Claim C3. -/

/-- Claim C3 counterexample: in the two-triangle variant, createProgram
panics inside the builder when a stage fails to compile, so the
ProgramBuilder component does abort the process itself on some inputs. -/
theorem c3_panic_counterexample :
    isPanic (TwoTri.createProgram failDriver st0 "v" "f").1 = true := by
  decide

/-- Claim C3 (amended): the createProgram of render.go and of the animated
variant never aborts, returning every compile or link failure as an error
value; the createProgram of the two-triangle variant aborts (panics inside
the builder) exactly when a compile stage fails, while its link failures
are still returned as error values. -/
theorem c3_amended_abort_policy (d : Driver) (st : GLState) (v f : String) :
    isPanic (createProgramR d st v f).1 = false ∧
    isPanic (TwoTri.createProgram d st v f).1 = !(d.compileOk v && d.compileOk f) := by
  constructor
  · rfl
  · cases hv : d.compileOk v <;> cases hf : d.compileOk f <;> cases hl : d.linkOk <;>
      simp [TwoTri.createProgram, compileShader, glCreateShader, glShaderSource,
            glCompileShader, glCreateProgram, glAttachShader, glLinkProgram,
            glDeleteShader, isAttached, hv, hf, hl, GL_FALSE, isPanic]

/-! Claim C4. -/

/-- Claim C4 counterexample: the index buffer of the two-triangle variant
is not the claimed 0,1,2,0,2,3. -/
theorem c4_index_buffer_counterexample : TwoTri.indices ≠ [0, 1, 2, 0, 2, 3] := by
  decide

/-- Claim C4 (amended): in the two-triangle scenario the vertex buffer
holds 4 positions (12 components; the fourth position is (1.0, -0.5, 0.0),
which does not complete a quad), the index buffer is 0,1,2,0,1,3, and each
frame issues exactly two indexed draw calls of 3 indices each, the second
addressing byte offset 12 of the same index buffer, with no vertex or
index data uploaded during the frame (both buffers are uploaded once at
setup). -/
theorem c4_amended_two_triangle_frame (esc : Bool) :
    TwoTri.vertices.length = 12 ∧
    TwoTri.vertices.drop 9 = [1.0, -0.5, 0.0] ∧
    TwoTri.indices = [0, 1, 2, 0, 1, 3] ∧
    drawCount (TwoTri.frameBody esc) = 2 ∧
    elementDraws (TwoTri.frameBody esc) = [(3, 0), (3, 12)] ∧
    (TwoTri.frameBody esc).filter isBufferUpload = [] ∧
    (TwoTri.setupEvents.filter isBufferUpload).length = 2 := by
  refine ⟨by decide, rfl, by decide, ?_, ?_, ?_, by decide⟩ <;> cases esc <;> rfl

/-! Claim C5. -/

/-- Claim C5: the model matrices uploaded by a frame of the animated
variant use, for instance i at elapsed time t, the rotation angle
DegToRad(angle i t) with angle i t = baseAngleStep * i + t * angularSpeed,
baseAngleStep = 20 degrees and angularSpeed = 50 degrees per second; in
particular at t = 0 instance 0 has angle 0, instance 1 has 20 and
instance 9 has 180 degrees. -/
theorem c5_rotation_angle (i : Nat) (t : ℚ) (esc : Bool) :
    uploadsOf "model" (Anim.frameBody t esc) =
      (List.range 10).map (fun j =>
        Anim.model (Anim.cubePositions.getD j (0, 0, 0)) (Anim.angle j t)) ∧
    rotationAngleOf (Anim.model (Anim.cubePositions.getD i (0, 0, 0)) (Anim.angle i t)) =
      some (AngleE.degToRad (Anim.angle i t)) ∧
    Anim.angle i t = Anim.baseAngleStep * i + t * Anim.angularSpeed ∧
    Anim.angle 0 0 = 0 ∧ Anim.angle 1 0 = 20 ∧ Anim.angle 9 0 = 180 := by
  refine ⟨?_, rfl, rfl, by norm_num [Anim.angle], by norm_num [Anim.angle],
    by norm_num [Anim.angle]⟩
  cases esc <;> rfl

/-! Claim C6. -/

/-- Claim C6: every model matrix uploaded by a frame of the animated
variant is identity times the translation by the base position of the
instance times the rotation by the DegToRad-converted angle about the
axis (0.5, 1.0, 0.0) passed through Normalize; that raw axis is non-zero
and its normalization has euclidean norm exactly 1 (hence within 1e-6 of
1). The rotating variant applies DegToRad to -55 and uses the axis
(1, 0, 0), whose norm is exactly 1. -/
theorem c6_model_matrix (t : ℚ) (esc : Bool) :
    uploadsOf "model" (Anim.frameBody t esc) =
      (List.range 10).map (fun j =>
        Mat4E.mul (Mat4E.mul Mat4E.ident
            (Mat4E.translate3D (Anim.cubePositions.getD j (0, 0, 0)).1
              (Anim.cubePositions.getD j (0, 0, 0)).2.1
              (Anim.cubePositions.getD j (0, 0, 0)).2.2))
          (Mat4E.homogRotate3D (AngleE.degToRad (Anim.angle j t)) Anim.rotationAxis)) ∧
    Anim.rotationAxis = Vec3E.normalize (Vec3E.lit 0.5 1 0) ∧
    Anim.axisNormSq ≠ 0 ∧
    Real.sqrt ((1 / 2 / Real.sqrt ((Anim.axisNormSq : ℝ))) ^ 2
      + (1 / Real.sqrt ((Anim.axisNormSq : ℝ))) ^ 2
      + (0 / Real.sqrt ((Anim.axisNormSq : ℝ))) ^ 2) = 1 ∧
    |Real.sqrt ((1 / 2 / Real.sqrt ((Anim.axisNormSq : ℝ))) ^ 2
      + (1 / Real.sqrt ((Anim.axisNormSq : ℝ))) ^ 2
      + (0 / Real.sqrt ((Anim.axisNormSq : ℝ))) ^ 2) - 1| ≤ 1 / 1000000 ∧
    Render.modelM = Mat4E.homogRotate3D (AngleE.degToRad (-55)) (Vec3E.lit 1 0 0) ∧
    Real.sqrt ((1 : ℝ) ^ 2 + 0 ^ 2 + 0 ^ 2) = 1 := by
  have hq : (Anim.axisNormSq : ℝ) = 5 / 4 := by norm_num [Anim.axisNormSq]
  have hs : Real.sqrt (5 / 4 : ℝ) ^ 2 = 5 / 4 := Real.sq_sqrt (by norm_num)
  have hone : Real.sqrt ((1 / 2 / Real.sqrt ((Anim.axisNormSq : ℝ))) ^ 2
      + (1 / Real.sqrt ((Anim.axisNormSq : ℝ))) ^ 2
      + (0 / Real.sqrt ((Anim.axisNormSq : ℝ))) ^ 2) = 1 := by
    rw [hq, div_pow, div_pow, div_pow, hs]
    norm_num
  refine ⟨?_, rfl, by norm_num [Anim.axisNormSq], hone, by rw [hone]; norm_num, rfl, by norm_num⟩
  cases esc <;> rfl

/-! Claim C7. -/

/-- Claim C7: in every frame of the animated variant, the view matrix
(identity times the translation moving the scene back by 3 units) and the
projection matrix (identity times the perspective matrix with
DegToRad-converted field of view 45 degrees, aspect ratio 800 over 640,
near plane 0.1 and far plane 100) are each uploaded exactly once, both
before the first draw call, and every uniform upload from the first draw
call on targets only the model uniform. -/
theorem c7_view_projection_per_frame (t : ℚ) (esc : Bool) :
    uploadsOf "view" (Anim.frameBody t esc) = [Anim.viewM] ∧
    uploadsOf "projection" (Anim.frameBody t esc) = [Anim.projectionM] ∧
    Anim.viewM = Mat4E.mul Mat4E.ident (Mat4E.translate3D 0 0 (-3)) ∧
    Anim.projectionM = Mat4E.mul Mat4E.ident
      (Mat4E.perspective (AngleE.degToRad 45) (800 / 640) 0.1 100) ∧
    idxOfUpload "view" (Anim.frameBody t esc) < idxFirstDraw (Anim.frameBody t esc) ∧
    idxOfUpload "projection" (Anim.frameBody t esc) < idxFirstDraw (Anim.frameBody t esc) ∧
    onlyModelUploads ((Anim.frameBody t esc).drop (idxFirstDraw (Anim.frameBody t esc))) = true := by
  refine ⟨?_, ?_, rfl, rfl, ?_, ?_, ?_⟩ <;> cases esc <;>
    first | rfl | exact of_decide_eq_true rfl

/-! Claim C8. -/

/-- Claim C8: starting with the should-close flag down, if Escape is first
observed pressed at some frame, the loop trace consists of the earlier
complete frames followed by the whole frame during which Escape was
pressed: that frame sets should-close, still issues its draw call before
its buffer swap, and no draw call occurs anywhere after the last swap of
the trace, whatever key states would have followed. -/
theorem c8_escape_ends_loop (pre rest : List Bool) (h : ∀ b ∈ pre, b = false) :
    Render.runLoop false (pre ++ true :: rest) =
      pre.flatMap (fun _ => Render.frameBody false) ++ Render.frameBody true ∧
    GLEvent.setShouldClose true ∈ Render.frameBody true ∧
    drawCount (Render.frameBody true) = 1 ∧
    idxFirstDraw (Render.frameBody true) <
      (Render.frameBody true).findIdx (fun e => e == GLEvent.swapBuffers) ∧
    drawCount (afterLastSwap (Render.runLoop false (pre ++ true :: rest))) = 0 := by
  refine ⟨runLoop_until_escape pre rest h, by decide, by decide, by decide, ?_⟩
  have hsplit : Render.frameBody true =
      [GLEvent.setShouldClose true, GLEvent.clearColor 0 1 0 1,
       GLEvent.clear GL_COLOR_BUFFER_BIT, GLEvent.bindVertexArray Render.vao,
       GLEvent.useProgram Render.shaderProgramId,
       GLEvent.uniformUpload "model" Render.modelM,
       GLEvent.uniformUpload "view" Render.viewM,
       GLEvent.uniformUpload "projection" Render.projectionM,
       GLEvent.drawElements GL_TRIANGLES 6 GL_UNSIGNED_INT 0] ++
      [GLEvent.swapBuffers, GLEvent.pollEvents] := rfl
  rw [runLoop_until_escape pre rest h, hsplit, ← List.append_assoc, afterLastSwap_concat]
  rfl

/-- Witness for C8 with one quiet frame, then Escape, then one further
key state that the loop never reads. -/
theorem c8_escape_witness :
    Render.runLoop false ([false] ++ true :: [false]) =
      [false].flatMap (fun _ => Render.frameBody false) ++ Render.frameBody true :=
  (c8_escape_ends_loop [false] [false] (by decide)).1

/-! Claim C9. -/

/-- Claim C9: the instance set of the animated variant has exactly ten
base positions, every frame issues exactly ten draw calls with exactly
ten model uploads, and the translations used by those uploads are, in
order, exactly the fixed base positions, for every elapsed time and key
state (the set is read-only during the loop). -/
theorem c9_instance_set (t : ℚ) (esc : Bool) :
    Anim.cubePositions.length = 10 ∧
    drawCount (Anim.frameBody t esc) = 10 ∧
    (uploadsOf "model" (Anim.frameBody t esc)).length = 10 ∧
    translationsUsed (Anim.frameBody t esc) = Anim.cubePositions := by
  refine ⟨by decide, ?_, ?_, ?_⟩ <;> cases esc <;> rfl

/-! Claim C10. -/

/-- Claim C10: every compile failure yields a flat string error equal to
the compile header followed by the log buffer, independent of the stage
type, and every link failure yields the link header followed by the link
log buffer; the buffer is allocated as msgLength plus one NUL bytes and
keeps that length, its last byte is always NUL, and both messages are
non-empty even when the driver log is empty. -/
theorem c10_error_message_shape (d : Driver) (st st2 : GLState) (src v f : String)
    (ty : Nat) (h : d.compileOk src = false)
    (h2 : d.compileOk v = true) (h3 : d.compileOk f = true) (h4 : d.linkOk = false) :
    (compileShader d st src ty).1 =
      Except.error (compileErrHeader ++ String.mk (filledLogBuf (d.compileLog src))) ∧
    (compileShader d st src GL_VERTEX_SHADER).1 =
      (compileShader d st src GL_FRAGMENT_SHADER).1 ∧
    (filledLogBuf (d.compileLog src)).length = infoLogLength (d.compileLog src) + 1 ∧
    (filledLogBuf (d.compileLog src)).getLast? = some nulChar ∧
    0 < (compileErrHeader ++ String.mk (filledLogBuf (d.compileLog src))).length ∧
    (createProgram d st2 v f).1 =
      Except.error (linkErrHeader ++ String.mk (filledLogBuf d.linkLog)) ∧
    (filledLogBuf d.linkLog).length = infoLogLength d.linkLog + 1 ∧
    (filledLogBuf d.linkLog).getLast? = some nulChar ∧
    0 < (linkErrHeader ++ String.mk (filledLogBuf d.linkLog)).length := by
  have hh : 0 < compileErrHeader.length := by decide
  have hl : 0 < linkErrHeader.length := by decide
  refine ⟨?_, ?_, filledLogBuf_length _, filledLogBuf_getLast _, ?_, ?_,
    filledLogBuf_length _, filledLogBuf_getLast _, ?_⟩
  · simp [compileShader, glCreateShader, glShaderSource, glCompileShader, h, GL_FALSE]
  · simp [compileShader, glCreateShader, glShaderSource, glCompileShader, h, GL_FALSE]
  · rw [String.length_append]; omega
  · simp [createProgram, compileShader, glCreateShader, glShaderSource, glCompileShader,
          glCreateProgram, glAttachShader, glLinkProgram, glDeleteShader, isAttached,
          h2, h3, h4, GL_FALSE]
  · rw [String.length_append]; omega

/-- Witness for C10 at a concrete driver failing the source "bad" and
the link. -/
theorem c10_error_message_witness :
    (compileShader mixedDriver st0 "bad" GL_VERTEX_SHADER).1 =
      Except.error (compileErrHeader ++ String.mk (filledLogBuf (mixedDriver.compileLog "bad"))) :=
  (c10_error_message_shape mixedDriver st0 st0 "bad" "okv" "okf" GL_VERTEX_SHADER
    (by decide) (by decide) (by decide) rfl).1
